import Mathlib

/-!
Shallow embedding, over the reals, of the orbit-camera controller
(src/crates/game_logic/src/camera_logic.rs) and of the telemetry
sampler / debug-snapshot builders (src/crates/game_logic/src/debug_logic.rs)
of the night-is-hell repository, together with proofs of the spec's claims
about them.  Floating-point values (`f32`) are modelled as real numbers,
`u64`/`usize` as naturals, and `Duration` as nanoseconds in `ℕ`.
-/

namespace NightIsHell

/-- Plane vector, models `bevy::math::Vec2`. -/
structure Vec2 where
  x : ℝ
  y : ℝ

/-- World vector, models `bevy::math::Vec3`. -/
structure Vec3 where
  x : ℝ
  y : ℝ
  z : ℝ

namespace Vec3

noncomputable instance : Add Vec3 := ⟨fun a b => ⟨a.x + b.x, a.y + b.y, a.z + b.z⟩⟩
noncomputable instance : Sub Vec3 := ⟨fun a b => ⟨a.x - b.x, a.y - b.y, a.z - b.z⟩⟩
noncomputable instance : Neg Vec3 := ⟨fun a => ⟨-a.x, -a.y, -a.z⟩⟩

/-- `Vec3::ZERO`. -/
def zero : Vec3 := ⟨0, 0, 0⟩

/-- `Vec3::Y`. -/
def yAxis : Vec3 := ⟨0, 1, 0⟩

/-- `Vec3::NEG_Z`. -/
def negZ : Vec3 := ⟨0, 0, -1⟩

/-- Componentwise scaling by a scalar (`Vec3 * f32` in glam). -/
noncomputable def scale (s : ℝ) (v : Vec3) : Vec3 := ⟨s * v.x, s * v.y, s * v.z⟩

/-- `Vec3::dot`. -/
noncomputable def dot (a b : Vec3) : ℝ := a.x * b.x + a.y * b.y + a.z * b.z

/-- `Vec3::cross`. -/
noncomputable def cross (a b : Vec3) : Vec3 :=
  ⟨a.y * b.z - a.z * b.y, a.z * b.x - a.x * b.z, a.x * b.y - a.y * b.x⟩

/-- `Vec3::length`. -/
noncomputable def length (v : Vec3) : ℝ := Real.sqrt (dot v v)

/-- Normalize `v`, falling back to `d` when the length is zero: models the
`try_normalize`/`Dir3::new .. unwrap_or` pattern of glam/bevy, where a
zero-length vector yields no direction. -/
noncomputable def normalizeOr (v d : Vec3) : Vec3 :=
  if length v = 0 then d else scale (1 / length v) v

/-- glam `Vec3::any_orthonormal_vector` (Pixar orthonormal-basis construction),
used by `look_to` when `up × back` degenerates. -/
noncomputable def anyOrthonormal (v : Vec3) : Vec3 :=
  let sign : ℝ := if 0 ≤ v.z then 1 else -1
  let a := -1 / (sign + v.z)
  let b := v.x * v.y * a
  ⟨b, sign + v.y * v.y * a, -v.y⟩

/-- `Vec3::lerp`: `self + (rhs - self) * s`, componentwise. -/
noncomputable def lerp (a b : Vec3) (t : ℝ) : Vec3 := a + scale t (b - a)

end Vec3

/-- Quaternion, models `bevy::math::Quat` (glam). -/
structure Quat where
  x : ℝ
  y : ℝ
  z : ℝ
  w : ℝ

namespace Quat

/-- `Quat::from_rotation_y(angle)`. -/
noncomputable def fromRotationY (angle : ℝ) : Quat :=
  ⟨0, Real.sin (angle / 2), 0, Real.cos (angle / 2)⟩

/-- `Quat::from_rotation_x(angle)`. -/
noncomputable def fromRotationX (angle : ℝ) : Quat :=
  ⟨Real.sin (angle / 2), 0, 0, Real.cos (angle / 2)⟩

/-- Hamilton product, `Quat::mul` in glam. -/
noncomputable def mul (q r : Quat) : Quat :=
  ⟨q.w * r.x + q.x * r.w + q.y * r.z - q.z * r.y,
   q.w * r.y - q.x * r.z + q.y * r.w + q.z * r.x,
   q.w * r.z + q.x * r.y - q.y * r.x + q.z * r.w,
   q.w * r.w - q.x * r.x - q.y * r.y - q.z * r.z⟩

/-- `Quat::mul_vec3` (glam formula `v*(w²-b·b) + b*(v·b)*2 + (b×v)*w*2`). -/
noncomputable def mulVec3 (q : Quat) (v : Vec3) : Vec3 :=
  let b : Vec3 := ⟨q.x, q.y, q.z⟩
  Vec3.scale (q.w * q.w - Vec3.dot b b) v +
    Vec3.scale (Vec3.dot v b * 2) b +
    Vec3.scale (q.w * 2) (Vec3.cross b v)

end Quat

/-- Orthonormal orientation frame `(right, up, back)`: the rotation part of a
camera `Transform`, represented by the basis produced by bevy's `look_to`
(the quaternion bevy stores is the one read back from this matrix, so the
frame determines it). -/
structure Frame where
  right : Vec3
  up : Vec3
  back : Vec3

/-- The identity orientation (rotation part of `Transform::from_xyz`). -/
def Frame.ident : Frame := ⟨⟨1, 0, 0⟩, ⟨0, 1, 0⟩, ⟨0, 0, 1⟩⟩

/-- bevy `Transform`: translation plus orientation. -/
structure Transform where
  translation : Vec3
  frame : Frame

/-- bevy `Transform::look_to` run from `translation` toward `focus`:
`back = -(normalize (focus - translation) or NEG_Z)`, `up` normalized with
`Y` fallback, `right = normalize (up × back)` with the orthonormal-vector
fallback, and the final `up = back × right`. -/
noncomputable def lookFrame (translation focus upIn : Vec3) : Frame :=
  let dir := focus - translation
  let back := -(Vec3.normalizeOr dir Vec3.negZ)
  let up := Vec3.normalizeOr upIn Vec3.yAxis
  let c := Vec3.cross up back
  let right := if Vec3.length c = 0 then Vec3.anyOrthonormal up
               else Vec3.scale (1 / Vec3.length c) c
  ⟨right, Vec3.cross back right, back⟩

/-- `Transform::look_at(target, up)`: replace the orientation by the
look-at frame, keeping the translation. -/
noncomputable def Transform.lookAt (t : Transform) (target up : Vec3) : Transform :=
  { t with frame := lookFrame t.translation target up }

/-- The `OrbitCamera` component (src/crates/game_models/src/camera.rs). -/
structure OrbitCamera where
  radius : ℝ
  yaw : ℝ
  pitch : ℝ
  target_radius : ℝ
  target_yaw : ℝ
  target_pitch : ℝ
  rotation_smoothness : ℝ
  zoom_smoothness : ℝ
  position_smoothness : ℝ
  follow_offset : Vec3

theorem OrbitCamera.ext {a b : OrbitCamera}
    (h1 : a.radius = b.radius) (h2 : a.yaw = b.yaw) (h3 : a.pitch = b.pitch)
    (h4 : a.target_radius = b.target_radius) (h5 : a.target_yaw = b.target_yaw)
    (h6 : a.target_pitch = b.target_pitch)
    (h7 : a.rotation_smoothness = b.rotation_smoothness)
    (h8 : a.zoom_smoothness = b.zoom_smoothness)
    (h9 : a.position_smoothness = b.position_smoothness)
    (h10 : a.follow_offset = b.follow_offset) : a = b := by
  cases a; cases b; simp_all

/-- A `MouseMotion` event (only its `delta` is read). -/
structure MouseMotion where
  delta : Vec2

/-- A `MouseWheel` event (only its `y` is read). -/
structure MouseWheel where
  x : ℝ
  y : ℝ

/-- The per-frame inputs of `orbit_camera_controls`: the drained motion and
wheel event queues, whether `MouseButton::Left` is pressed, and
`time.delta_secs()`. -/
structure CamInput where
  motionEvents : List MouseMotion
  wheelEvents : List MouseWheel
  leftPressed : Bool
  dt : ℝ

/-- `let mut motion_delta = Vec2::ZERO; for event in motion_events.read()
\x7b motion_delta += event.delta; \x7d`. -/
noncomputable def sumMotion (events : List MouseMotion) : Vec2 :=
  events.foldl (fun acc e => ⟨acc.x + e.delta.x, acc.y + e.delta.y⟩) ⟨0, 0⟩

/-- `let mut scroll_delta = 0.0; for event in wheel_events.read()
\x7b scroll_delta += event.y; \x7d`. -/
noncomputable def sumScroll (events : List MouseWheel) : ℝ :=
  events.foldl (fun acc e => acc + e.y) 0

/-- Rust `f32::clamp(lo, hi)` = `min (max x lo) hi`. -/
noncomputable def rClamp (x lo hi : ℝ) : ℝ := min (max x lo) hi

/-- `f32::EPSILON` = 2⁻²³. -/
noncomputable def f32Eps : ℝ := 1 / 8388608

/-- bevy `f32::lerp`: `self + (rhs - self) * s`. -/
noncomputable def rLerp (a b t : ℝ) : ℝ := a + (b - a) * t

/-- The damped-interpolation factor `1.0 - (-smoothness * dt).exp()` used for
the rotation, zoom and position channels (camera_logic.rs lines 106-108). -/
noncomputable def smoothingFactor (smoothness dt : ℝ) : ℝ :=
  1 - Real.exp (-smoothness * dt)

/-- Steps 1-2 of the loop body of `orbit_camera_controls`: apply the
accumulated mouse motion while the left button is held (with the pitch
clamp), then apply the scroll to the target radius (with the radius
clamp) when the scroll magnitude exceeds `f32::EPSILON`. -/
noncomputable def stepInput (pressed : Bool) (motionDelta : Vec2) (scrollDelta : ℝ)
    (orbit : OrbitCamera) : OrbitCamera :=
  let o1 := if pressed then
      { orbit with
        target_yaw := orbit.target_yaw - motionDelta.x * 0.005,
        target_pitch := rClamp (orbit.target_pitch - motionDelta.y * 0.005) (-1.2) 1.2 }
    else orbit
  if |scrollDelta| > f32Eps then
    { o1 with target_radius := rClamp (o1.target_radius - scrollDelta * 0.6) 3 18 }
  else o1

/-- Steps 3-4 of the loop body: lerp yaw and pitch toward their targets by
the rotation factor and radius toward its target by the zoom factor. -/
noncomputable def stepSmooth (dt : ℝ) (o : OrbitCamera) : OrbitCamera :=
  let rotation_t := smoothingFactor o.rotation_smoothness dt
  let zoom_t := smoothingFactor o.zoom_smoothness dt
  { o with
    yaw := rLerp o.yaw o.target_yaw rotation_t,
    pitch := rLerp o.pitch o.target_pitch rotation_t,
    radius := rLerp o.radius o.target_radius zoom_t }

/-- The full loop body of `orbit_camera_controls` for one camera: update the
orbit state, then recompute the camera transform (rotation from yaw/pitch,
offset of length `radius`, focus at the target plus `follow_offset`,
translation lerped by the position factor, and `look_at` the focus). -/
noncomputable def tickCamera (inp : CamInput) (target : Transform)
    (cam : OrbitCamera × Transform) : OrbitCamera × Transform :=
  let motionDelta := sumMotion inp.motionEvents
  let scrollDelta := sumScroll inp.wheelEvents
  let o2 := stepInput inp.leftPressed motionDelta scrollDelta cam.1
  let position_t := smoothingFactor o2.position_smoothness inp.dt
  let o3 := stepSmooth inp.dt o2
  let rotation := Quat.mul (Quat.fromRotationY o3.yaw) (Quat.fromRotationX o3.pitch)
  let offset := Quat.mulVec3 rotation ⟨0, 0, o3.radius⟩
  let focusPoint := target.translation + o3.follow_offset
  let desired := focusPoint + offset
  let newTranslation := Vec3.lerp cam.2.translation desired position_t
  (o3, Transform.lookAt ⟨newTranslation, cam.2.frame⟩ focusPoint Vec3.yAxis)

/-- The `orbit_camera_controls` system: `targets.single()` succeeds only when
exactly one `Player` transform exists; otherwise the system returns without
touching any camera.  With a single target every camera is updated by the
loop body. -/
noncomputable def orbit_camera_controls (inp : CamInput) (targets : List Transform)
    (cameras : List (OrbitCamera × Transform)) : List (OrbitCamera × Transform) :=
  match targets with
  | [target] => cameras.map (tickCamera inp target)
  | _ => cameras

/-- The `OrbitCamera` spawned by `setup_test_scene` (camera_logic.rs 33-44). -/
noncomputable def setupOrbitCamera : OrbitCamera :=
  { radius := 8.0, yaw := 0.0, pitch := -0.3,
    target_radius := 8.0, target_yaw := 0.0, target_pitch := -0.3,
    rotation_smoothness := 12.0, zoom_smoothness := 10.0,
    position_smoothness := 14.0, follow_offset := ⟨0.0, 1.2, 0.0⟩ }

/-- The camera transform spawned by `setup_test_scene`:
`Transform::from_xyz(0.0, 3.0, 8.0).looking_at(Vec3::ZERO, Vec3::Y)`. -/
noncomputable def setupCamTransform : Transform :=
  Transform.lookAt ⟨⟨0, 3, 8⟩, Frame.ident⟩ Vec3.zero Vec3.yAxis

/-- One engine frame as seen by the camera system: its inputs and the list of
`Player` (follow-target) transforms present this frame. -/
structure CamFrame where
  input : CamInput
  targets : List Transform

/-- Run `orbit_camera_controls` over a sequence of frames. -/
noncomputable def runFrames (frames : List CamFrame)
    (cameras : List (OrbitCamera × Transform)) : List (OrbitCamera × Transform) :=
  frames.foldl (fun cams f => orbit_camera_controls f.input f.targets cams) cameras

/-- The clamping invariant of claim C4 on an orbit-camera state. -/
def camInvariant (o : OrbitCamera) : Prop :=
  -1.2 ≤ o.target_pitch ∧ o.target_pitch ≤ 1.2 ∧
    3 ≤ o.target_radius ∧ o.target_radius ≤ 18

/-- C1: for every `dt > 0` and fixed `smoothness > 0` the damped-interpolation
factor `t = 1 - exp(-smoothness*dt)` lies in `(0,1)`, is strictly increasing
in `dt` and in `smoothness`, and tends to `1` as `dt → ∞`. -/
theorem smoothingFactor_props (s dt : ℝ) (hs : 0 < s) (hdt : 0 < dt) :
    smoothingFactor s dt ∈ Set.Ioo (0 : ℝ) 1 ∧
    (∀ dt2, dt < dt2 → smoothingFactor s dt < smoothingFactor s dt2) ∧
    (∀ s2, s < s2 → smoothingFactor s dt < smoothingFactor s2 dt) ∧
    Filter.Tendsto (fun d => smoothingFactor s d) Filter.atTop (nhds 1) := by
  have hsd : 0 < s * dt := mul_pos hs hdt
  refine ⟨⟨?_, ?_⟩, ?_, ?_, ?_⟩
  · have h1 : Real.exp (-s * dt) < 1 := Real.exp_lt_one_iff.mpr (by nlinarith)
    simp only [smoothingFactor]
    linarith
  · have h2 : 0 < Real.exp (-s * dt) := Real.exp_pos _
    simp only [smoothingFactor]
    linarith
  · intro dt2 h
    have : Real.exp (-s * dt2) < Real.exp (-s * dt) :=
      Real.exp_lt_exp.mpr (by nlinarith)
    simp only [smoothingFactor]
    linarith
  · intro s2 h
    have : Real.exp (-s2 * dt) < Real.exp (-s * dt) :=
      Real.exp_lt_exp.mpr (by nlinarith)
    simp only [smoothingFactor]
    linarith
  · have hneg : (-s : ℝ) < 0 := neg_neg_of_pos hs
    have h1 : Filter.Tendsto (fun d : ℝ => Real.exp (-s * d)) Filter.atTop (nhds 0) :=
      Real.tendsto_exp_atBot.comp
        ((Filter.tendsto_const_mul_atBot_of_neg hneg).mpr Filter.tendsto_id)
    have h2 := h1.const_sub 1
    simpa [smoothingFactor] using h2

/-- Witness for C1 at `smoothness = 1`, `dt = 1`. -/
theorem smoothingFactor_props_witness :
    smoothingFactor 1 1 ∈ Set.Ioo (0 : ℝ) 1 :=
  (smoothingFactor_props 1 1 (by norm_num) (by norm_num)).1

/-- With nonnegative rate and nonnegative frame time the damping factor lies
in `[0, 1]`. -/
theorem smoothingFactor_mem (s dt : ℝ) (hs : 0 ≤ s) (hdt : 0 ≤ dt) :
    0 ≤ smoothingFactor s dt ∧ smoothingFactor s dt ≤ 1 := by
  have h1 : Real.exp (-s * dt) ≤ 1 := by
    apply Real.exp_le_one_iff.mpr
    have := mul_nonneg hs hdt
    nlinarith
  have h2 : 0 < Real.exp (-s * dt) := Real.exp_pos _
  unfold smoothingFactor
  constructor <;> linarith

/-- A lerp with factor in `[0, 1]` stays between its endpoints and does not
move away from the destination. -/
theorem rLerp_between (a b t : ℝ) (h0 : 0 ≤ t) (h1 : t ≤ 1) :
    min a b ≤ rLerp a b t ∧ rLerp a b t ≤ max a b ∧
      |rLerp a b t - b| ≤ |a - b| := by
  unfold rLerp
  rcases le_total a b with h | h
  · have hab : |a - b| = b - a := by
      rw [abs_of_nonpos (by linarith)]; ring
    have hmin : min a b = a := min_eq_left h
    have hmax : max a b = b := max_eq_right h
    refine ⟨?_, ?_, ?_⟩
    · rw [hmin]; nlinarith
    · rw [hmax]; nlinarith
    · rw [hab]
      apply abs_le.mpr
      constructor <;> nlinarith
  · have hab : |a - b| = a - b := abs_of_nonneg (by linarith)
    have hmin : min a b = b := min_eq_right h
    have hmax : max a b = a := max_eq_left h
    refine ⟨?_, ?_, ?_⟩
    · rw [hmin]; nlinarith
    · rw [hmax]; nlinarith
    · rw [hab]
      apply abs_le.mpr
      constructor <;> nlinarith

/-- A tick with zero accumulated motion and zero scroll leaves the input
stage a no-op, provided the pitch target already satisfies its clamp. -/
theorem stepInput_zero (pressed : Bool) (o : OrbitCamera)
    (hp1 : -1.2 ≤ o.target_pitch) (hp2 : o.target_pitch ≤ 1.2) :
    stepInput pressed ⟨0, 0⟩ 0 o = o := by
  have hs : ¬(|(0 : ℝ)| > f32Eps) := by
    rw [abs_zero]
    unfold f32Eps
    norm_num
  simp only [stepInput]
  rw [if_neg hs]
  cases pressed
  · rfl
  · show ({ o with
        target_yaw := o.target_yaw - (0 : ℝ) * 0.005,
        target_pitch := rClamp (o.target_pitch - (0 : ℝ) * 0.005) (-1.2) 1.2 }
          : OrbitCamera) = o
    have h1 : o.target_yaw - (0 : ℝ) * 0.005 = o.target_yaw := by ring
    have h2 : rClamp (o.target_pitch - (0 : ℝ) * 0.005) (-1.2) 1.2 = o.target_pitch := by
      rw [show o.target_pitch - (0 : ℝ) * 0.005 = o.target_pitch by ring]
      unfold rClamp
      rw [max_eq_left hp1, min_eq_left hp2]
    rw [h1, h2]

/-- C2: a controller tick with zero pointer motion and zero scroll leaves all
three target values fixed, and each of the current yaw, pitch and radius
moves between its previous value and its target without overshooting and
without increasing its distance to the target. -/
theorem camera_tick_no_overshoot (pressed : Bool) (dt : ℝ) (target : Transform)
    (o : OrbitCamera) (tf : Transform) (res : OrbitCamera)
    (hres : res = (tickCamera ⟨[], [], pressed, dt⟩ target (o, tf)).1)
    (hdt : 0 ≤ dt) (hrot : 0 ≤ o.rotation_smoothness)
    (hzoom : 0 ≤ o.zoom_smoothness)
    (hp1 : -1.2 ≤ o.target_pitch) (hp2 : o.target_pitch ≤ 1.2) :
    res.target_yaw = o.target_yaw ∧ res.target_pitch = o.target_pitch ∧
    res.target_radius = o.target_radius ∧
    min o.yaw o.target_yaw ≤ res.yaw ∧ res.yaw ≤ max o.yaw o.target_yaw ∧
    |res.yaw - o.target_yaw| ≤ |o.yaw - o.target_yaw| ∧
    min o.pitch o.target_pitch ≤ res.pitch ∧
    res.pitch ≤ max o.pitch o.target_pitch ∧
    |res.pitch - o.target_pitch| ≤ |o.pitch - o.target_pitch| ∧
    min o.radius o.target_radius ≤ res.radius ∧
    res.radius ≤ max o.radius o.target_radius ∧
    |res.radius - o.target_radius| ≤ |o.radius - o.target_radius| := by
  have hstep : (tickCamera ⟨[], [], pressed, dt⟩ target (o, tf)).1
      = stepSmooth dt (stepInput pressed ⟨0, 0⟩ 0 o) := rfl
  rw [hres, hstep, stepInput_zero pressed o hp1 hp2]
  obtain ⟨hr0, hr1⟩ := smoothingFactor_mem o.rotation_smoothness dt hrot hdt
  obtain ⟨hz0, hz1⟩ := smoothingFactor_mem o.zoom_smoothness dt hzoom hdt
  obtain ⟨hy1, hy2, hy3⟩ :=
    rLerp_between o.yaw o.target_yaw (smoothingFactor o.rotation_smoothness dt) hr0 hr1
  obtain ⟨hq1, hq2, hq3⟩ :=
    rLerp_between o.pitch o.target_pitch (smoothingFactor o.rotation_smoothness dt) hr0 hr1
  obtain ⟨hd1, hd2, hd3⟩ :=
    rLerp_between o.radius o.target_radius (smoothingFactor o.zoom_smoothness dt) hz0 hz1
  exact ⟨rfl, rfl, rfl, hy1, hy2, hy3, hq1, hq2, hq3, hd1, hd2, hd3⟩

/-- Witness for C2: a zero-input tick from the scene's initial camera keeps
the yaw target unchanged. -/
theorem camera_tick_no_overshoot_witness :
    (tickCamera ⟨[], [], false, 1⟩ setupCamTransform
        (setupOrbitCamera, setupCamTransform)).1.target_yaw
      = setupOrbitCamera.target_yaw :=
  (camera_tick_no_overshoot false 1 setupCamTransform setupOrbitCamera
    setupCamTransform _ rfl (by norm_num)
    (by norm_num [setupOrbitCamera]) (by norm_num [setupOrbitCamera])
    (by norm_num [setupOrbitCamera]) (by norm_num [setupOrbitCamera])).1

/-- C3: when the number of follow targets is not exactly one, a controller
tick returns every camera (orbit state and transform) unchanged. -/
theorem controls_noop (inp : CamInput) (targets : List Transform)
    (cams : List (OrbitCamera × Transform)) (h : targets.length ≠ 1) :
    orbit_camera_controls inp targets cams = cams := by
  rcases targets with _ | ⟨a, _ | ⟨b, rest⟩⟩
  · rfl
  · simp at h
  · rfl

/-- Witness for C3 with zero targets and the scene's initial camera. -/
theorem controls_noop_witness :
    (([] : List Transform).length ≠ 1) ∧
    orbit_camera_controls ⟨[], [], false, 0⟩ []
        [(setupOrbitCamera, setupCamTransform)]
      = [(setupOrbitCamera, setupCamTransform)] :=
  ⟨by decide, controls_noop _ _ _ (by decide)⟩

/-- The input stage preserves the pitch/radius clamping invariant. -/
theorem stepInput_inv (pressed : Bool) (md : Vec2) (sd : ℝ) (o : OrbitCamera)
    (h : camInvariant o) : camInvariant (stepInput pressed md sd o) := by
  obtain ⟨h1, h2, h3, h4⟩ := h
  have hclampP : ∀ x : ℝ, -1.2 ≤ rClamp x (-1.2) 1.2 ∧ rClamp x (-1.2) 1.2 ≤ 1.2 := by
    intro x
    unfold rClamp
    exact ⟨le_min (le_max_right x (-1.2)) (by norm_num), min_le_right _ _⟩
  have hclampR : ∀ x : ℝ, 3 ≤ rClamp x 3 18 ∧ rClamp x 3 18 ≤ 18 := by
    intro x
    unfold rClamp
    exact ⟨le_min (le_max_right x 3) (by norm_num), min_le_right _ _⟩
  simp only [stepInput]
  split_ifs <;> cases pressed <;>
    simp only [Bool.false_eq_true, if_false, if_true, camInvariant] <;>
    refine ⟨?_, ?_, ?_, ?_⟩ <;>
    first
      | exact h1 | exact h2 | exact h3 | exact h4
      | exact (hclampP _).1 | exact (hclampP _).2
      | exact (hclampR _).1 | exact (hclampR _).2

/-- One camera tick preserves the clamping invariant. -/
theorem tickCamera_inv (inp : CamInput) (target : Transform)
    (cam : OrbitCamera × Transform) (h : camInvariant cam.1) :
    camInvariant (tickCamera inp target cam).1 :=
  stepInput_inv inp.leftPressed (sumMotion inp.motionEvents)
    (sumScroll inp.wheelEvents) cam.1 h

/-- The controller system preserves the clamping invariant of every camera. -/
theorem controls_inv (inp : CamInput) (targets : List Transform)
    (cams : List (OrbitCamera × Transform))
    (h : ∀ p ∈ cams, camInvariant p.1) :
    ∀ p ∈ orbit_camera_controls inp targets cams, camInvariant p.1 := by
  rcases targets with _ | ⟨a, _ | ⟨b, rest⟩⟩
  · exact h
  · intro p hp
    simp only [orbit_camera_controls, List.mem_map] at hp
    obtain ⟨q, hq, hqp⟩ := hp
    rw [← hqp]
    exact tickCamera_inv _ _ _ (h q hq)
  · exact h

/-- Running any frame sequence preserves the clamping invariant. -/
theorem runFrames_inv (frames : List CamFrame)
    (cams : List (OrbitCamera × Transform))
    (h : ∀ p ∈ cams, camInvariant p.1) :
    ∀ p ∈ runFrames frames cams, camInvariant p.1 := by
  induction frames generalizing cams with
  | nil => exact h
  | cons f fs ih =>
      exact ih (orbit_camera_controls f.input f.targets cams)
        (controls_inv f.input f.targets cams h)

/-- C4: starting from the camera spawned by `setup_test_scene`
(`target_pitch = -0.3`, `target_radius = 8.0`), after any sequence of frames
with arbitrary inputs and target configurations, every camera's
`target_pitch` stays in `[-1.2, 1.2]` and its `target_radius` in
`[3.0, 18.0]`. -/
theorem camera_clamp_invariant (frames : List CamFrame)
    (p : OrbitCamera × Transform)
    (hp : p ∈ runFrames frames [(setupOrbitCamera, setupCamTransform)]) :
    camInvariant p.1 := by
  apply runFrames_inv frames _ _ p hp
  intro q hq
  rw [List.mem_singleton] at hq
  rw [hq]
  unfold camInvariant setupOrbitCamera
  norm_num

/-- Witness for C4 on the empty frame sequence. -/
theorem camera_clamp_invariant_witness :
    (setupOrbitCamera, setupCamTransform)
        ∈ runFrames [] [(setupOrbitCamera, setupCamTransform)] ∧
      camInvariant (setupOrbitCamera, setupCamTransform).1 :=
  ⟨List.mem_singleton.mpr rfl,
    camera_clamp_invariant [] _ (List.mem_singleton.mpr rfl)⟩

/-- C5: while the left button is held, a tick subtracts `dx * 0.005` from the
yaw target and `dy * 0.005` from the pitch target (then clamps the pitch),
where `(dx, dy)` is the accumulated pointer delta. -/
theorem camera_drag_targets (inp : CamInput) (target : Transform)
    (o : OrbitCamera) (tf : Transform) (hp : inp.leftPressed = true) :
    (tickCamera inp target (o, tf)).1.target_yaw
        = o.target_yaw - (sumMotion inp.motionEvents).x * 0.005 ∧
    (tickCamera inp target (o, tf)).1.target_pitch
        = rClamp (o.target_pitch - (sumMotion inp.motionEvents).y * 0.005)
            (-1.2) 1.2 := by
  have hstep : (tickCamera inp target (o, tf)).1
      = stepSmooth inp.dt (stepInput inp.leftPressed (sumMotion inp.motionEvents)
          (sumScroll inp.wheelEvents) o) := rfl
  rw [hstep, hp]
  simp only [stepSmooth, stepInput, if_true]
  split_ifs <;> exact ⟨rfl, rfl⟩

/-- Witness for C5: one left-drag tick with `dx = 100` from the initial
camera state moves the yaw target to `-0.5`. -/
theorem camera_drag_targets_witness :
    (tickCamera ⟨[⟨⟨100, 0⟩⟩], [], true, 1⟩ setupCamTransform
        (setupOrbitCamera, setupCamTransform)).1.target_yaw = -0.5 :=
  (camera_drag_targets ⟨[⟨⟨100, 0⟩⟩], [], true, 1⟩ setupCamTransform
      setupOrbitCamera setupCamTransform rfl).1.trans
    (by norm_num [sumMotion, List.foldl, setupOrbitCamera])

/-! ## Telemetry sampler and debug-snapshot builders (debug_logic.rs) -/

/-- A repeating bevy `Timer`, with duration and elapsed time in integer
nanoseconds (`Duration` is integral). -/
structure RepTimer where
  duration : ℕ
  elapsed : ℕ

/-- `Timer::tick(delta)` of a repeating timer, paired with the subsequent
`just_finished()`: the elapsed time advances by `delta`; when it reaches the
duration the timer fires and the elapsed time wraps modulo the duration. -/
def RepTimer.tick (t : RepTimer) (delta : ℕ) : RepTimer × Bool :=
  let e := t.elapsed + delta
  if t.duration ≤ e then ({ t with elapsed := e % t.duration }, true)
  else ({ t with elapsed := e }, false)

/-- What the `sysinfo` backend reports after the refresh calls of a sampler
tick: whether `system.process(pid)` found the current process, that
process's memory and raw CPU usage, `global_cpu_usage()`, and
`cpus().len()`. -/
structure SysReading where
  processFound : Bool
  procMem : ℕ
  procCpu : ℝ
  globalCpu : ℝ
  numCpus : ℕ

/-- The `SysStats` resource (src/crates/game_models/src/debug.rs); the opaque
`sysinfo::System` handle is represented by the readings it produces
(`SysReading`) rather than stored. -/
structure SysStats where
  cpu_all_percent : ℝ
  app_cpu_percent : ℝ
  app_mem_bytes : ℕ
  timer : RepTimer

/-- `internal_sys_info`: the initial sampling at startup; stores the
process's memory and raw CPU usage, defaulting to `(0, 0.0)` when the
process is not found (`unwrap_or`). -/
noncomputable def internal_sys_info (reading : SysReading) (s : SysStats) : SysStats :=
  let pm := if reading.processFound then (reading.procMem, reading.procCpu)
            else (0, 0)
  { s with app_mem_bytes := pm.1, app_cpu_percent := pm.2 }

/-- `poll_sys_info`: returns immediately when the overlay is hidden;
otherwise ticks the rate-limiting timer by the frame delta and, exactly when
it fires, re-reads the backend: global CPU, process memory/CPU with
`(0, 0.0)` fallback, and the process CPU normalized by the logical core
count (minimum 1) and clamped to `[0, 100]`. -/
noncomputable def poll_sys_info (debugState : Bool) (delta : ℕ)
    (reading : SysReading) (s : SysStats) : SysStats :=
  if !debugState then s
  else
    let tk := RepTimer.tick s.timer delta
    if tk.2 then
      let pm := if reading.processFound then (reading.procMem, reading.procCpu)
                else (0, 0)
      let logical : ℝ := (max reading.numCpus 1 : ℕ)
      let app_cpu_norm := rClamp (pm.2 / logical) 0 100
      { cpu_all_percent := reading.globalCpu,
        app_cpu_percent := app_cpu_norm,
        app_mem_bytes := pm.1,
        timer := tk.1 }
    else { s with timer := tk.1 }

/-- The `DebugSnapshot` resource (src/crates/game_models/src/debug.rs). -/
structure DebugSnapshot where
  fps : ℝ
  cpu_all_percent : ℝ
  app_cpu_percent : ℝ
  app_mem_bytes : ℕ
  v_ram_label : String
  player_pos : Vec3
  character_name : String
  app_name : String
  app_ver : String
  bevy_ver : String
  backend_name : String
  cpu_brand : String
  backend_str : String
  key_debug_info : String
  key_gizmos : String

/-- `DebugSnapshot::default()` (`#[derive(Default)]`). -/
noncomputable def snapDefault : DebugSnapshot :=
  ⟨0, 0, 0, 0, "", Vec3.zero, "", "", "", "", "", "", "", "", ""⟩

/-- The `BuildInfo` resource. -/
structure BuildInfo where
  app_name : String
  app_version : String
  bevy_version : String

/-- `RenderAdapterInfo`: adapter name and the backend token
(`backend.to_str()`). -/
structure AdapterInfo where
  name : String
  backend : String

/-- The slice of `GlobalConfig.input_config` read by `snap_build`. -/
structure InputConfig where
  system_info : String
  gizmos_boxen : String

/-- The `GlobalConfig` resource (only `input_config` is read here). -/
structure GlobalConfig where
  input_config : InputConfig

/-- One entry of `sysinfo`'s `cpus()` list: per-core `brand()` and
`name()`. -/
structure Cpu where
  brand : String
  name : String

/-- The result of `detect_v_ram_best_effort`: byte count and source label. -/
structure VRamInfo where
  bytes : ℕ
  source : String

/-- `fmt_bytes` (src/crates/game_models/src/v_ram_detection.rs): `"X.X GB"`
for at least one GiB, else `"X MB"`; the decimal rounding of Rust's float
formatting is modelled as round-half-up on naturals. -/
def fmtBytes (bytes : ℕ) : String :=
  if 1073741824 ≤ bytes then
    let t := (bytes * 10 + 536870912) / 1073741824
    toString (t / 10) ++ "." ++ toString (t % 10) ++ " GB"
  else
    toString ((bytes + 524288) / 1048576) ++ " MB"

/-- `snap_perf`: gated on the overlay flag; copies the smoothed FPS
diagnostic (0.0 when absent) and the sampler readings into the snapshot. -/
noncomputable def snap_perf (debugState : Bool) (fpsSmoothed : Option ℝ)
    (stats : SysStats) (snap : DebugSnapshot) : DebugSnapshot :=
  if !debugState then snap
  else
    { snap with
      fps := fpsSmoothed.getD 0,
      cpu_all_percent := stats.cpu_all_percent,
      app_cpu_percent := stats.app_cpu_percent,
      app_mem_bytes := stats.app_mem_bytes }

/-- The backend-token table of `snap_build`'s `match`. -/
def backendLabel (b : String) : String :=
  if b = "vulkan" then "Vulkan"
  else if b = "gl" then "OpenGL"
  else if b = "metal" then "Metal"
  else if b = "dx12" ∨ b = "DX12" then "DirectX12"
  else if b = "dx11" ∨ b = "DX11" then "DirectX11"
  else "Unknown"

/-- `snap_build`: gated on the overlay flag; copies build identity strings
(with `("<app>", "?", "0.17.3")` fallbacks), the adapter name, the mapped
backend label, and the hotkey labels from configuration. -/
noncomputable def snap_build (debugState : Bool) (build : Option BuildInfo)
    (backend : AdapterInfo) (cfg : GlobalConfig) (snap : DebugSnapshot) :
    DebugSnapshot :=
  if !debugState then snap
  else
    let info := match build with
      | some b => (b.app_name, b.app_version, b.bevy_version)
      | none => ("<app>", "?", "0.17.3")
    { snap with
      app_name := info.1,
      app_ver := info.2.1,
      bevy_ver := info.2.2,
      backend_name := backend.name,
      backend_str := backendLabel backend.backend,
      key_debug_info := cfg.input_config.system_info,
      key_gizmos := cfg.input_config.gizmos_boxen }

/-- `snap_v_ram`: gated on the overlay flag; formats the best-effort V-RAM
probe result as `"<amount> (<source>)"`, or `"n/a"` when it fails. -/
noncomputable def snap_v_ram (debugState : Bool) (probe : Option VRamInfo)
    (snap : DebugSnapshot) : DebugSnapshot :=
  if !debugState then snap
  else
    match probe with
    | some info =>
        { snap with v_ram_label := fmtBytes info.bytes ++ " (" ++ info.source ++ ")" }
    | none => { snap with v_ram_label := "n/a" }

/-- `snap_cpu_brand`: gated on the overlay flag; a no-op once the stored
brand is non-empty, otherwise stores the first non-empty trimmed per-core
brand, falling back to the first core's trimmed name, falling back to
`"Unknown CPU"`. -/
noncomputable def snap_cpu_brand (debugState : Bool) (cpus : List Cpu)
    (snap : DebugSnapshot) : DebugSnapshot :=
  if !debugState then snap
  else if !snap.cpu_brand.isEmpty then snap
  else
    let brand :=
      (((cpus.map (fun c => c.brand.trim)).find? (fun b => !b.isEmpty)).or
        (cpus.head?.map (fun c => c.name.trim))).getD "Unknown CPU"
    { snap with cpu_brand := brand }

/-- On a firing, overlay-visible tick the sampler's result is the record
built from the backend reading. -/
theorem poll_fired_eq (delta : ℕ) (r : SysReading) (s : SysStats)
    (hfired : (RepTimer.tick s.timer delta).2 = true) :
    poll_sys_info true delta r s
      = { cpu_all_percent := r.globalCpu,
          app_cpu_percent :=
            rClamp ((if r.processFound then r.procCpu else 0)
              / ((max r.numCpus 1 : ℕ) : ℝ)) 0 100,
          app_mem_bytes := (if r.processFound then r.procMem else 0),
          timer := (RepTimer.tick s.timer delta).1 } := by
  simp only [poll_sys_info, Bool.not_true, Bool.false_eq_true, if_false, hfired,
    if_true]
  cases h : r.processFound <;> simp [h]

/-- C6: for every raw process-CPU reading (negative or arbitrarily large)
and every logical core count, a firing sampler tick stores
`raw / max(coreCount, 1)` clamped to `[0, 100]` as the normalized app CPU
percent, which therefore lies in `[0, 100]`. -/
theorem cpu_norm_clamped (delta : ℕ) (r : SysReading) (s : SysStats)
    (hfired : (RepTimer.tick s.timer delta).2 = true)
    (hfound : r.processFound = true) :
    (poll_sys_info true delta r s).app_cpu_percent
        = rClamp (r.procCpu / ((max r.numCpus 1 : ℕ) : ℝ)) 0 100 ∧
    0 ≤ (poll_sys_info true delta r s).app_cpu_percent ∧
    (poll_sys_info true delta r s).app_cpu_percent ≤ 100 := by
  rw [poll_fired_eq delta r s hfired, hfound]
  refine ⟨rfl, ?_, ?_⟩
  · exact le_min (le_max_right _ _) (by norm_num)
  · exact min_le_right _ _

/-- Witness for C6: a negative raw reading on an 8-core machine is stored
clamped. -/
theorem cpu_norm_clamped_witness :
    (poll_sys_info true 4 ⟨true, 123456, -5, 42, 8⟩ ⟨0, 0, 0, ⟨5, 3⟩⟩).app_cpu_percent
        = rClamp ((-5) / ((max 8 1 : ℕ) : ℝ)) 0 100 ∧
    0 ≤ (poll_sys_info true 4 ⟨true, 123456, -5, 42, 8⟩ ⟨0, 0, 0, ⟨5, 3⟩⟩).app_cpu_percent ∧
    (poll_sys_info true 4 ⟨true, 123456, -5, 42, 8⟩ ⟨0, 0, 0, ⟨5, 3⟩⟩).app_cpu_percent ≤ 100 :=
  cpu_norm_clamped 4 ⟨true, 123456, -5, 42, 8⟩ ⟨0, 0, 0, ⟨5, 3⟩⟩ (by decide) rfl

/-- C7: when the backend cannot find the current process, both the initial
sampling and a firing sampler tick store `0` bytes of app memory and `0.0`
app CPU percent (the operations are total, so they always return). -/
theorem process_missing_defaults (delta : ℕ) (r : SysReading) (s : SysStats)
    (hfound : r.processFound = false) :
    (internal_sys_info r s).app_mem_bytes = 0 ∧
    (internal_sys_info r s).app_cpu_percent = 0 ∧
    ((RepTimer.tick s.timer delta).2 = true →
      (poll_sys_info true delta r s).app_mem_bytes = 0 ∧
      (poll_sys_info true delta r s).app_cpu_percent = 0) := by
  refine ⟨?_, ?_, fun hfired => ?_⟩
  · simp [internal_sys_info, hfound]
  · simp [internal_sys_info, hfound]
  · rw [poll_fired_eq delta r s hfired, hfound]
    refine ⟨rfl, ?_⟩
    show rClamp ((if False then r.procCpu else 0) / ((max r.numCpus 1 : ℕ) : ℝ)) 0 100 = 0
    rw [if_neg (by exact fun h => h)]
    unfold rClamp
    rw [zero_div, max_self]
    exact min_eq_left (by norm_num)

/-- Witness for C7 on a firing tick with the process missing. -/
theorem process_missing_defaults_witness :
    (internal_sys_info ⟨false, 77, 33, 42, 8⟩ ⟨0, 0, 0, ⟨5, 3⟩⟩).app_mem_bytes = 0 ∧
    (internal_sys_info ⟨false, 77, 33, 42, 8⟩ ⟨0, 0, 0, ⟨5, 3⟩⟩).app_cpu_percent = 0 ∧
    ((RepTimer.tick (⟨5, 3⟩ : RepTimer) 4).2 = true →
      (poll_sys_info true 4 ⟨false, 77, 33, 42, 8⟩ ⟨0, 0, 0, ⟨5, 3⟩⟩).app_mem_bytes = 0 ∧
      (poll_sys_info true 4 ⟨false, 77, 33, 42, 8⟩ ⟨0, 0, 0, ⟨5, 3⟩⟩).app_cpu_percent = 0) :=
  process_missing_defaults 4 ⟨false, 77, 33, 42, 8⟩ ⟨0, 0, 0, ⟨5, 3⟩⟩ rfl

/-- C8: when the overlay-visibility flag is false, the sampler poll and all
four snapshot builders return their state unchanged, performing no query
work. -/
theorem overlay_hidden_noop (delta : ℕ) (r : SysReading) (s : SysStats)
    (fpsSmoothed : Option ℝ) (stats : SysStats) (snap : DebugSnapshot)
    (build : Option BuildInfo) (backend : AdapterInfo) (cfg : GlobalConfig)
    (probe : Option VRamInfo) (cpus : List Cpu) :
    poll_sys_info false delta r s = s ∧
    snap_perf false fpsSmoothed stats snap = snap ∧
    snap_build false build backend cfg snap = snap ∧
    snap_v_ram false probe snap = snap ∧
    snap_cpu_brand false cpus snap = snap :=
  ⟨rfl, rfl, rfl, rfl, rfl⟩

/-- C9: on an overlay-visible frame tick the sampler's timer advances by the
frame delta, and the backend readings are stored exactly when the timer
fires (otherwise the stored metrics are unchanged). -/
theorem poll_timer_gating (delta : ℕ) (r : SysReading) (s : SysStats) :
    (poll_sys_info true delta r s).timer = (RepTimer.tick s.timer delta).1 ∧
    (poll_sys_info true delta r s).cpu_all_percent
        = (if (RepTimer.tick s.timer delta).2 then r.globalCpu
           else s.cpu_all_percent) ∧
    (poll_sys_info true delta r s).app_mem_bytes
        = (if (RepTimer.tick s.timer delta).2
           then (if r.processFound then r.procMem else 0)
           else s.app_mem_bytes) ∧
    (poll_sys_info true delta r s).app_cpu_percent
        = (if (RepTimer.tick s.timer delta).2
           then rClamp ((if r.processFound then r.procCpu else 0)
              / ((max r.numCpus 1 : ℕ) : ℝ)) 0 100
           else s.app_cpu_percent) := by
  cases hfired : (RepTimer.tick s.timer delta).2
  · refine ⟨?_, ?_, ?_, ?_⟩ <;>
      simp only [poll_sys_info, Bool.not_true, Bool.false_eq_true, if_false,
        hfired]
  · rw [poll_fired_eq delta r s hfired]
    exact ⟨rfl, rfl, rfl, rfl⟩

/-- C10: CPU-brand resolution is memoized: once the stored brand is
non-empty the builder is a no-op (for any backend data and either overlay
state); when it is empty, it stores the first non-empty trimmed per-core
brand, else the first core's trimmed name, else `"Unknown CPU"`. -/
theorem cpu_brand_memoized (dbg : Bool) (cpus : List Cpu)
    (snap : DebugSnapshot) (br : String) (c : Cpu) (rest : List Cpu) :
    (snap.cpu_brand.isEmpty = false → snap_cpu_brand dbg cpus snap = snap) ∧
    (snap.cpu_brand.isEmpty = true →
      ((cpus.map (fun c0 => c0.brand.trim)).find? (fun b => !b.isEmpty)
            = some br →
        (snap_cpu_brand true cpus snap).cpu_brand = br) ∧
      ((cpus.map (fun c0 => c0.brand.trim)).find? (fun b => !b.isEmpty)
            = none →
        cpus = c :: rest →
        (snap_cpu_brand true cpus snap).cpu_brand = c.name.trim) ∧
      (cpus = [] →
        (snap_cpu_brand true cpus snap).cpu_brand = "Unknown CPU")) := by
  constructor
  · intro hne
    cases dbg
    · rfl
    · simp [snap_cpu_brand, hne]
  · intro hem
    refine ⟨?_, ?_, ?_⟩
    · intro hfind
      simp [snap_cpu_brand, hem, hfind]
    · intro hfind hcons
      subst hcons
      simp only [snap_cpu_brand, hem, Bool.not_true, Bool.false_eq_true,
        if_false, Bool.not_false, if_true]
      rw [hfind]
      simp
    · intro hnil
      subst hnil
      simp [snap_cpu_brand, hem]

/-- Witness for C10: from an empty brand field with no reported cores, the
builder stores the literal `"Unknown CPU"`. -/
theorem cpu_brand_memoized_witness :
    (snap_cpu_brand true [] snapDefault).cpu_brand = "Unknown CPU" :=
  ((cpu_brand_memoized true [] snapDefault "" ⟨"", ""⟩ []).2 rfl).2.2 rfl

end NightIsHell
